import Mathlib

/-!
Shallow embedding of the MailSight route handlers (src/routes.py) that carry
the program logic under verification: the `/tracklist` aggregation pipeline
(grouping, per-month sorting, year sorting, month naming, hit-count
annotation), the `/track` pixel endpoint (validation, owner check, hit
recording), and the `/logout` handler.

Conventions of the embedding:
- Firebase realtime-database dictionaries become association lists in
  insertion order (Python dicts preserve insertion order, Firebase `get`
  returns the children of a path).  A path with no data yields `none`
  (`ref.get()` returns `None` in the SDK, which the source relies on at
  `routes.py:92` and `routes.py:229`); an association list can therefore be
  non-empty only when the corresponding node exists.
- A parsed timezone-aware datetime (`dt.strptime(..., "%Y-%m-%d %H:%M:%S.%f%z")`)
  is abstracted as a `Timestamp`: the `year` and `month` fields that the
  grouping reads, and a `rest` field standing for the remaining
  day/time-of-day components; all stored datetimes share the single
  configured `TIMEZONE`, so datetime comparison is the lexicographic order
  on `(year, month, rest)`.
- Python `sorted(..., key=..., reverse=True)` is a stable sort placing
  larger keys first; it is embedded as the stable insertion sort `sortR`
  with the comparison `fun a b => key b ≤ key a` (a total preorder, so the
  stable sorted result is the same list Python produces: keys descending,
  ties in original order).
-/

/-- Abstraction of a parsed timezone-aware datetime: the grouping in
`tracklist` reads `.year` and `.month`; `rest` stands for the remaining
components (day, time of day) so that datetime order is lexicographic. -/
structure Timestamp where
  year : Nat
  month : Nat
  rest : Nat
deriving DecidableEq, Repr

/-- Datetime comparison: lexicographic on `(year, month, rest)`. -/
def Timestamp.leb (a b : Timestamp) : Bool :=
  decide (a.year < b.year ∨ (a.year = b.year ∧
    (a.month < b.month ∨ (a.month = b.month ∧ a.rest ≤ b.rest))))

/-- One hit record pushed under `/MailTrackData/LinkHits/{utm_id}/`
(`routes.py:206`-`routes.py:213`): IP, UserAgent, AccessedOn. -/
structure HitEvent where
  ip : String
  userAgent : String
  accessedOn : Timestamp
deriving DecidableEq, Repr

/-- One tracking record stored under `/MailTrackData/Users/{uid}/{utm_id}`
(`routes.py:61`-`routes.py:67`): MailTitle, MailAddress, GeneratedOn.  The
`hits` field models the optional `"Hits"` key that `tracklist` may add to
the record dict at `routes.py:98`; records read from the store carry
`none`. -/
structure LinkRecord where
  mailTitle : String
  mailAddress : String
  generatedOn : Timestamp
  hits : Option Nat
deriving DecidableEq, Repr

/-- Python `d[k]` on an insertion-ordered dict, as an optional lookup:
`some v` when the key is present, `none` for the `KeyError` case. -/
def lookupA {α β : Type} [DecidableEq α] : List (α × β) → α → Option β
  | [], _ => none
  | (k', v) :: rest, k => if k' = k then some v else lookupA rest k

/-- Python `d[k] = f(d[k] if k in d else dflt)` on an insertion-ordered
dict: updates the entry in place when the key exists, otherwise appends a
new entry at the end (dict insertion order). -/
def updAssoc {α β : Type} [DecidableEq α] : List (α × β) → α → (β → β) → β → List (α × β)
  | [], k, f, dflt => [(k, f dflt)]
  | (k', v) :: rest, k, f, dflt =>
    if k' = k then (k', f v) :: rest else (k', v) :: updAssoc rest k f dflt

abbrev ItemList := List (String × LinkRecord)
abbrev MonthGroups := List (Nat × ItemList)
abbrev YearGroups := List (Nat × MonthGroups)
abbrev NamedMonthGroups := List (String × ItemList)
abbrev Overview := List (Nat × NamedMonthGroups)

/-- The hit-count annotation loop of `tracklist` (`routes.py:96`-`routes.py:100`),
for the case where `link_hits` is an actual dict: for each `utm_id` in
the tracking list, try to set `"Hits"` to `len(link_hits[utm_id])`; on
`KeyError` (`utm_id` absent from the hits dict) `pass` — the record is
left exactly as it was, with no `"Hits"` key.  The case where the whole
`LinkHits` node is absent (`link_hits` is `None`, so `link_hits[utm_id]`
raises an uncaught `TypeError`) is handled by the route-level
`tracklist` below, not here. -/
def annotateHits (tracking : ItemList) (linkHits : List (String × List HitEvent)) : ItemList :=
  tracking.map (fun kv =>
    match lookupA linkHits kv.1 with
    | some hs => (kv.1, { kv.2 with hits := some hs.length })
    | none => kv)

/-- One step of the grouping loop (`routes.py:112`-`routes.py:115`):
`sorted_tracking[year][month].append((key, value))` on a
`defaultdict(lambda: defaultdict(list))`. -/
def addItem (acc : YearGroups) (kv : String × LinkRecord) : YearGroups :=
  updAssoc acc kv.2.generatedOn.year
    (fun months => updAssoc months kv.2.generatedOn.month (fun items => items ++ [kv]) [])
    []

/-- The grouping loop over `tracking_list.items()` (`routes.py:112`-`routes.py:115`). -/
def groupByYearMonth (items : ItemList) : YearGroups :=
  items.foldl addItem []

/-- Insert `a` into a list sorted by the total preorder `r` (where
`r x y = true` reads "x may come before y"), keeping earlier elements
first on ties — the insertion step of a stable insertion sort. -/
def insertR {α : Type} (r : α → α → Bool) (a : α) : List α → List α
  | [] => [a]
  | b :: bs => if r b a then b :: insertR r a bs else a :: b :: bs

/-- Stable sort by the total preorder `r`: elements are inserted in their
original order, so equivalent elements keep their relative order — the
input/output behavior of Python `sorted` with the matching comparison. -/
def sortR {α : Type} (r : α → α → Bool) (l : List α) : List α :=
  l.foldl (fun acc a => insertR r a acc) []

/-- Comparison used for `sorted(items, key=lambda x: x[1]["GeneratedOn"], reverse=True)`:
stable descending order by `GeneratedOn`. -/
def descOn (a b : String × LinkRecord) : Bool :=
  Timestamp.leb b.2.generatedOn a.2.generatedOn

/-- The per-month sorting loop (`routes.py:118`-`routes.py:122`): each
month bucket is replaced by itself sorted by `GeneratedOn` descending;
year and month keys and their order are untouched. -/
def sortWithinMonths (g : YearGroups) : YearGroups :=
  g.map (fun ym => (ym.1, ym.2.map (fun mi => (mi.1, sortR descOn mi.2))))

/-- Comparison used for `dict(sorted(sorted_tracking.items(), reverse=True))`
(`routes.py:125`): the pairs are ordered by their first component, the
year (year keys of a dict are distinct, so tuple comparison never reaches
the second component). -/
def yearDesc (a b : Nat × MonthGroups) : Bool :=
  decide (b.1 ≤ a.1)

/-- `dict(sorted(sorted_tracking.items(), reverse=True))` (`routes.py:125`):
sorts the outer (year) entries descending; the inner month dicts are not
touched and keep their insertion order. -/
def sortYears (g : YearGroups) : YearGroups :=
  sortR yearDesc g

/-- The `month_names` table of `routes.py:127`-`routes.py:141` (index 0 is
the empty placeholder; datetime months are 1..12). -/
def month_names : List String :=
  ["", "January", "February", "March", "April", "May", "June",
   "July", "August", "September", "October", "November", "December"]

/-- `month_names[month]` (`routes.py:146`) for the month numbers 1..12
produced by `datetime.month`. -/
def monthName (m : Nat) : String :=
  month_names.getD m ""

/-- The whole display pipeline of `tracklist` for a non-empty tracking
dict (`routes.py:92`-`routes.py:147`): annotate hit counts, group by
`(year, month)`, sort inside each month bucket, sort years descending,
and replace numeric months by their names. -/
def tracklistOverview (tracking : ItemList) (linkHits : List (String × List HitEvent)) :
    Overview :=
  let annotated := annotateHits tracking linkHits
  let grouped := sortYears (sortWithinMonths (groupByYearMonth annotated))
  grouped.map (fun ym => (ym.1, ym.2.map (fun mi => (monthName mi.1, mi.2))))

/-- All `(utm_id, record)` items of an overview, in display order across
all year and month groups. -/
def overviewItems (o : Overview) : ItemList :=
  (o.map (fun ym => (ym.2.map (fun mi => mi.2)).flatten)).flatten

/-- The flattened items of the intermediate `YearGroups` shape. -/
def flatYears (g : YearGroups) : ItemList :=
  (g.map (fun ym => (ym.2.map (fun mi => mi.2)).flatten)).flatten

/-- Outcome of the `/tracklist` route: the rendered overview, the
zero-records redirect to `/index` (`routes.py:154`-`routes.py:157`), or
an exception no handler in the route catches. -/
inductive TracklistResult where
  | overview (o : Overview)
  | redirectIndex
  | crash
deriving DecidableEq, Repr

/-- The `/tracklist` route (`routes.py:82`-`routes.py:157`).  An empty
tracking dict (`ref_1.get()` returned `None`) redirects to `/index`.
Otherwise `link_hits = ref_2.get()` at `routes.py:95` is read: when the
`LinkHits` node is absent (`None`, embedded as `[]`), the first loop
iteration evaluates `len(link_hits[utm_id])` at `routes.py:98` and the
subscript on `None` raises a `TypeError` that the `except KeyError` does
not catch — the request crashes.  With an existing (non-empty) hits dict
the pipeline `tracklistOverview` runs to completion: a per-key `KeyError`
is swallowed by `pass` and never propagates. -/
def tracklist (tracking : ItemList) (linkHits : List (String × List HitEvent)) :
    TracklistResult :=
  match tracking with
  | [] => .redirectIndex
  | t :: ts =>
    match linkHits with
    | [] => .crash
    | x :: xs => .overview (tracklistOverview (t :: ts) (x :: xs))

/-- The global state read and written by the `/track` handler:
`/MailTrackData/Users/{uid}` (per-user tracking records) and
`/MailTrackData/LinkHits` (the global hit-index, one entry per generated
`utm_id`; a freshly generated link has the empty placeholder, embedded as
`[]`). -/
structure Store where
  users : List (String × ItemList)
  linkHits : List (String × List HitEvent)
deriving DecidableEq, Repr

/-- `db.reference(f"/MailTrackData/Users/{uid}").get()` (`routes.py:190`-`routes.py:191`):
`None` when the user namespace holds no tracking links (a Firebase node
with no children does not exist), otherwise the non-empty dict. -/
def dbGetUsers (s : Store) (uid : String) : Option ItemList :=
  match lookupA s.users uid with
  | none => none
  | some [] => none
  | some (x :: xs) => some (x :: xs)

/-- `db.reference("/MailTrackData/LinkHits").get()` (`routes.py:178`-`routes.py:179`):
`None` when no link was ever generated, otherwise the dict of all hit
entries. -/
def dbGetLinkHitsRoot (s : Store) : Option (List (String × List HitEvent)) :=
  match s.linkHits with
  | [] => none
  | x :: xs => some (x :: xs)

/-- The inputs of one `/track` request: the `utm_id` query parameter, the
`uid` entry of the Flask session (absent for an anonymous or invalid
session), the `X-Forwarded-For` header, the remote address, the
`User-Agent` header, and the current time (`dt.now` at `routes.py:203`). -/
structure TrackRequest where
  utmId : Option String
  sessionUid : Option String
  xForwardedFor : Option String
  remoteAddr : String
  userAgent : Option String
  now : Timestamp
deriving DecidableEq, Repr

/-- Outcome of a `/track` request: the pixel response (`send_file`), an
`abort(400)`-style client-input rejection, or an exception that no
handler in `track` catches (served as an internal server error). -/
inductive TrackResult where
  | pixel
  | badRequest
  | crash
deriving DecidableEq, Repr

/-- The hit-recording block (`routes.py:199`-`routes.py:213`), entered when
the session has no `uid` or the session user does not own the link.
`ip_address` is `request.headers.get("X-Forwarded-For") or request.remote_addr`
(Python `or`: an absent or empty header falls back to the remote address).
Modelled from the spec: a missing `User-Agent` header makes the header
lookup at `routes.py:202` fail before anything is written; the spec's
error taxonomy (§3, §7) classifies this missing-required-header failure as
a client-input (4xx-equivalent) rejection, embedded as `badRequest`. -/
def recordHit (req : TrackRequest) (utm : String) (s : Store) : TrackResult × Store :=
  match req.userAgent with
  | none => (.badRequest, s)
  | some ua =>
    let ip := match req.xForwardedFor with
      | some x => if x = "" then req.remoteAddr else x
      | none => req.remoteAddr
    (.pixel,
      { s with linkHits := updAssoc s.linkHits utm (fun evs => evs ++ [⟨ip, ua, req.now⟩]) [] })

/-- The `/track` handler (`routes.py:160`-`routes.py:219`):
missing `utm_id` parameter → `abort(400)`; empty `utm_id` → `abort(400)`
(the `else` of `if utm_id:`); a `None` hit-index root makes
`all_hits[utm_id]` raise an uncaught `TypeError`; an absent key raises
`KeyError` → `abort(400)`; with a session `uid`, a `None` user namespace
makes `user_data.keys()` raise an uncaught `AttributeError`
(`except KeyError` at `routes.py:199` does not match it); an owned
`utm_id` returns the pixel with no write; otherwise the raised `KeyError`
reaches the handler and a hit is recorded. -/
def track (req : TrackRequest) (s : Store) : TrackResult × Store :=
  match req.utmId with
  | none => (.badRequest, s)
  | some utm =>
    if utm = "" then (.badRequest, s)
    else
      match dbGetLinkHitsRoot s with
      | none => (.crash, s)
      | some allHits =>
        match lookupA allHits utm with
        | none => (.badRequest, s)
        | some _ =>
          match req.sessionUid with
          | none => recordHit req utm s
          | some uid =>
            match dbGetUsers s uid with
            | none => (.crash, s)
            | some userRecs =>
              if utm ∈ userRecs.map Prod.fst then (.pixel, s)
              else recordHit req utm s

/-- The sessions the identity collaborator currently accepts: a map from
session-cookie value to the authenticated `uid`. -/
structure IdentityState where
  sessions : List (String × String)
deriving DecidableEq, Repr

/-- Modelled from the spec: the Identity Client collaborator
(`auth.verify_session_cookie`, not part of this repository).  Per the
§4.4 contract, verification of a valid credential yields the session
user; an invalid or missing credential fails with
`InvalidSessionCookieError`, embedded as `none`. -/
def verifySessionCookie (ident : IdentityState) (cookie : Option String) : Option String :=
  match cookie with
  | none => none
  | some c => lookupA ident.sessions c

/-- What the `/logout` handler sends back: the redirect target, whether
the `secure-session` cookie was cleared, and the flashed messages. -/
structure LogoutResponse where
  redirectTo : String
  cookieCleared : Bool
  flashes : List String
deriving DecidableEq, Repr

/-- The `/logout` handler (`routes.py:313`-`routes.py:328`): a verified
cookie revokes every session of that user (`auth.revoke_refresh_tokens`),
clears the cookie, flashes the success message and redirects to login;
an `InvalidSessionCookieError` is caught and answered with a bare
redirect to login — nothing flashed, nothing changed. -/
def logout (ident : IdentityState) (cookie : Option String) :
    LogoutResponse × IdentityState :=
  match verifySessionCookie ident cookie with
  | some uid =>
    (⟨"login", true, ["Successfully Logged Out! - See you soon..."]⟩,
      ⟨ident.sessions.filter (fun p => decide (p.2 ≠ uid))⟩)
  | none => (⟨"login", false, []⟩, ident)

/-! ### Order facts about the comparison functions -/

theorem Timestamp.leb_total (a b : Timestamp) : (a.leb b || b.leb a) = true := by
  simp only [Timestamp.leb, Bool.or_eq_true, decide_eq_true_eq]
  omega

theorem Timestamp.leb_trans {a b c : Timestamp} (h1 : a.leb b = true) (h2 : b.leb c = true) :
    a.leb c = true := by
  simp only [Timestamp.leb, decide_eq_true_eq] at h1 h2 ⊢
  omega

theorem descOn_trans (a b c : String × LinkRecord) (h1 : descOn a b = true)
    (h2 : descOn b c = true) : descOn a c = true :=
  Timestamp.leb_trans h2 h1

theorem descOn_total (a b : String × LinkRecord) : (descOn a b || descOn b a) = true :=
  Timestamp.leb_total b.2.generatedOn a.2.generatedOn

theorem yearDesc_trans (a b c : Nat × MonthGroups) (h1 : yearDesc a b = true)
    (h2 : yearDesc b c = true) : yearDesc a c = true := by
  simp only [yearDesc, decide_eq_true_eq] at h1 h2 ⊢
  omega

theorem yearDesc_total (a b : Nat × MonthGroups) : (yearDesc a b || yearDesc b a) = true := by
  simp only [yearDesc, Bool.or_eq_true, decide_eq_true_eq]
  omega

/-! ### The stable insertion sort: permutation and sortedness -/

theorem insertR_perm {α : Type} (r : α → α → Bool) (a : α) (l : List α) :
    List.Perm (insertR r a l) (a :: l) := by
  induction l with
  | nil => exact List.Perm.refl _
  | cons b bs ih =>
    by_cases h : r b a = true
    · simp only [insertR, if_pos h]
      exact (ih.cons b).trans (List.Perm.swap a b bs)
    · simp only [insertR, if_neg h]
      exact List.Perm.refl _

theorem sortR_perm {α : Type} (r : α → α → Bool) (l : List α) :
    List.Perm (sortR r l) l := by
  have main : ∀ (xs acc : List α),
      List.Perm (xs.foldl (fun acc a => insertR r a acc) acc) (acc ++ xs) := by
    intro xs
    induction xs with
    | nil => intro acc; simp
    | cons x xs ih =>
      intro acc
      have h1 := ih (insertR r x acc)
      have h2 : List.Perm (insertR r x acc ++ xs) ((x :: acc) ++ xs) :=
        (insertR_perm r x acc).append_right xs
      have h3 : List.Perm ((x :: acc) ++ xs) (acc ++ x :: xs) := by
        simp only [List.cons_append]
        exact List.perm_middle.symm
      exact (h1.trans h2).trans h3
  simpa [sortR] using main l []

theorem insertR_pairwise {α : Type} (r : α → α → Bool)
    (htrans : ∀ a b c, r a b = true → r b c = true → r a c = true)
    (htot : ∀ a b, (r a b || r b a) = true)
    (a : α) (l : List α) (h : l.Pairwise (fun x y => r x y = true)) :
    (insertR r a l).Pairwise (fun x y => r x y = true) := by
  induction l with
  | nil => simp [insertR]
  | cons b bs ih =>
    rcases List.pairwise_cons.mp h with ⟨hb, hbs⟩
    by_cases hba : r b a = true
    · simp only [insertR, if_pos hba]
      refine List.pairwise_cons.mpr ⟨?_, ih hbs⟩
      intro x hx
      rcases List.mem_cons.mp ((insertR_perm r a bs).mem_iff.mp hx) with hxa | hxbs
      · rw [hxa]; exact hba
      · exact hb x hxbs
    · simp only [insertR, if_neg hba]
      have hab : r a b = true := by
        have hor := htot a b
        rw [Bool.or_eq_true] at hor
        rcases hor with h1 | h1
        · exact h1
        · exact absurd h1 hba
      refine List.pairwise_cons.mpr ⟨?_, h⟩
      intro x hx
      rcases List.mem_cons.mp hx with hxb | hxbs
      · rw [hxb]; exact hab
      · exact htrans a b x hab (hb x hxbs)

theorem sortR_pairwise {α : Type} (r : α → α → Bool)
    (htrans : ∀ a b c, r a b = true → r b c = true → r a c = true)
    (htot : ∀ a b, (r a b || r b a) = true) (l : List α) :
    (sortR r l).Pairwise (fun x y => r x y = true) := by
  have main : ∀ (xs acc : List α), acc.Pairwise (fun x y => r x y = true) →
      (xs.foldl (fun acc a => insertR r a acc) acc).Pairwise (fun x y => r x y = true) := by
    intro xs
    induction xs with
    | nil => intro acc hacc; simpa using hacc
    | cons x xs ih => intro acc hacc; exact ih _ (insertR_pairwise r htrans htot x acc hacc)
  simpa [sortR] using main l [] List.Pairwise.nil

/-! ### The aggregation pipeline is a permutation of its input -/

theorem flatten_map_perm {α β : Type} (l : List α) (f g : α → List β)
    (h : ∀ x ∈ l, List.Perm (f x) (g x)) :
    List.Perm (l.map f).flatten (l.map g).flatten := by
  induction l with
  | nil => simp
  | cons x xs ih =>
    simp only [List.map_cons, List.flatten_cons]
    exact (h x (by simp)).append (ih fun y hy => h y (by simp [hy]))

theorem flat_updAssoc {α β γ : Type} [DecidableEq α] (g : β → List γ)
    (k : α) (f : β → β) (dflt : β) (extra : List γ)
    (hf : ∀ v, List.Perm (g (f v)) (g v ++ extra)) (hd : g dflt = [])
    (l : List (α × β)) :
    List.Perm ((updAssoc l k f dflt).map (fun p => g p.2)).flatten
      ((l.map (fun p => g p.2)).flatten ++ extra) := by
  induction l with
  | nil => simpa [updAssoc, hd] using hf dflt
  | cons p rest ih =>
    obtain ⟨k', v⟩ := p
    by_cases hk : k' = k
    · simp only [updAssoc, if_pos hk, List.map_cons, List.flatten_cons]
      refine ((hf v).append_right _).trans ?_
      rw [List.append_assoc, List.append_assoc]
      exact List.Perm.append_left _ List.perm_append_comm
    · simp only [updAssoc, if_neg hk, List.map_cons, List.flatten_cons]
      rw [List.append_assoc]
      exact List.Perm.append_left _ ih

theorem flat_upd_month (months : MonthGroups) (m : Nat) (kv : String × LinkRecord) :
    List.Perm ((updAssoc months m (fun items => items ++ [kv]) []).map (fun p => p.2)).flatten
      ((months.map (fun p => p.2)).flatten ++ [kv]) :=
  flat_updAssoc (fun x => x) m (fun items => items ++ [kv]) [] [kv]
    (fun _ => List.Perm.refl _) rfl months

theorem flatYears_addItem (acc : YearGroups) (kv : String × LinkRecord) :
    List.Perm (flatYears (addItem acc kv)) (flatYears acc ++ [kv]) := by
  unfold flatYears addItem
  exact flat_updAssoc (fun months => (months.map (fun mi => mi.2)).flatten)
    kv.2.generatedOn.year
    (fun months => updAssoc months kv.2.generatedOn.month (fun items => items ++ [kv]) [])
    [] [kv]
    (fun v => flat_upd_month v kv.2.generatedOn.month kv) rfl acc

theorem flatYears_groupBy (items : ItemList) :
    List.Perm (flatYears (groupByYearMonth items)) items := by
  have main : ∀ (its : ItemList) (acc : YearGroups),
      List.Perm (flatYears (its.foldl addItem acc)) (flatYears acc ++ its) := by
    intro its
    induction its with
    | nil => intro acc; simp
    | cons x xs ih =>
      intro acc
      have h1 : List.Perm (flatYears ((x :: xs).foldl addItem acc))
          (flatYears (addItem acc x) ++ xs) := ih (addItem acc x)
      have h2 : List.Perm (flatYears (addItem acc x) ++ xs) ((flatYears acc ++ [x]) ++ xs) :=
        (flatYears_addItem acc x).append_right xs
      have h3 : (flatYears acc ++ [x]) ++ xs = flatYears acc ++ (x :: xs) := by simp
      exact (h1.trans h2).trans (List.Perm.of_eq h3)
  simpa [groupByYearMonth, flatYears] using main items []

theorem flatYears_sortWithinMonths (g : YearGroups) :
    List.Perm (flatYears (sortWithinMonths g)) (flatYears g) := by
  unfold flatYears sortWithinMonths
  rw [List.map_map]
  apply flatten_map_perm
  intro ym _
  simp only [Function.comp_apply]
  rw [List.map_map]
  apply flatten_map_perm
  intro mi _
  simp only [Function.comp_apply]
  exact sortR_perm descOn mi.2

theorem flatYears_sortYears (g : YearGroups) :
    List.Perm (flatYears (sortYears g)) (flatYears g) :=
  ((sortR_perm yearDesc g).map _).flatten

theorem overviewItems_nameStep (g : YearGroups) :
    overviewItems (g.map (fun ym => (ym.1, ym.2.map (fun mi => (monthName mi.1, mi.2))))) =
      flatYears g := by
  simp [overviewItems, flatYears, List.map_map, Function.comp_def]

theorem overviewItems_perm (t : ItemList) (h : List (String × List HitEvent)) :
    List.Perm (overviewItems (tracklistOverview t h)) (annotateHits t h) := by
  show List.Perm (overviewItems ((sortYears (sortWithinMonths
    (groupByYearMonth (annotateHits t h)))).map
      (fun ym => (ym.1, ym.2.map (fun mi => (monthName mi.1, mi.2)))))) (annotateHits t h)
  rw [overviewItems_nameStep]
  exact ((flatYears_sortYears _).trans (flatYears_sortWithinMonths _)).trans
    (flatYears_groupBy _)

theorem annotateHits_map_fst (t : ItemList) (h : List (String × List HitEvent)) :
    (annotateHits t h).map Prod.fst = t.map Prod.fst := by
  unfold annotateHits
  rw [List.map_map]
  apply List.map_congr_left
  intro kv _
  simp only [Function.comp_apply]
  cases lookupA h kv.1 <;> rfl

/-! ### Small helpers shared by the endpoint theorems -/

theorem exists_some_of_ne_none {α : Type} {o : Option α} (h : o ≠ none) : ∃ v, o = some v := by
  cases o with
  | none => exact absurd rfl h
  | some v => exact ⟨v, rfl⟩

theorem dbRoot_of_lookup {s : Store} {utm : String} {v : List HitEvent}
    (hv : lookupA s.linkHits utm = some v) :
    dbGetLinkHitsRoot s = some s.linkHits := by
  cases hsl : s.linkHits with
  | nil => rw [hsl] at hv; simp [lookupA] at hv
  | cons x xs => simp [dbGetLinkHitsRoot, hsl]

/-! ### Claim theorems -/

/-- Claim C1.  The grouped overview does NOT order months descending within
a year: `routes.py:125` sorts only the year entries (its comment notwithstanding),
and the month buckets keep insertion order.  For a tracking dict listing a
January 2024 link before a December 2024 link, the rendered year group
shows January before December, where the claim requires December before
January. -/
theorem c1_months_left_unsorted :
    (tracklistOverview
        [("a", ⟨"tJan", "mJan", ⟨2024, 1, 5⟩, none⟩),
         ("b", ⟨"tDec", "mDec", ⟨2024, 12, 3⟩, none⟩)] []).map
        (fun ym => (ym.1, ym.2.map Prod.fst)) =
      [(2024, ["January", "December"])] ∧
    [((2024 : Nat), ["January", "December"])] ≠ [(2024, ["December", "January"])] :=
  ⟨rfl, by decide⟩

/-- Claim C2, counterexample to the claim as stated.  For a link whose
`utm_id` is absent from a hits dict that does exist — here the dict holds
only the placeholder entry of another link `"b"`, so the loop takes the
genuine `KeyError` path — the `except KeyError: pass` at
`routes.py:99`-`routes.py:100` leaves the record without any hit-count
annotation (`none`), not with `0`: the route completes and renders the
overview, but `"a"` carries no `hit_count` at all. -/
theorem c2_absent_hits_key_not_zero :
    tracklist [("a", ⟨"t", "m", ⟨2024, 3, 1⟩, none⟩)] [("b", [])] =
      TracklistResult.overview
        (tracklistOverview [("a", ⟨"t", "m", ⟨2024, 3, 1⟩, none⟩)] [("b", [])]) ∧
    (overviewItems
        (tracklistOverview [("a", ⟨"t", "m", ⟨2024, 3, 1⟩, none⟩)] [("b", [])])).map
        (fun kv => kv.2.hits) = [none] ∧
    (overviewItems
        (tracklistOverview [("a", ⟨"t", "m", ⟨2024, 3, 1⟩, none⟩)] [("b", [])])).map
        (fun kv => kv.2.hits) ≠ [some 0] :=
  ⟨rfl, rfl, by decide⟩

/-- Claim C2 as amended.  Provided the global hits node exists (the hits
dict is non-empty), the track-list request succeeds — no lookup failure
propagates — and every link of the input mapping appears in the rendered
overview: annotated with `hit_count` equal to the length of its hits
entry when its key is present (so a zero-hit link, whose key is present
with the empty placeholder, gets `hit_count = 0` and is kept), and
unchanged — present but with no hit-count annotation — when its key is
absent.  (When the hits node is absent altogether, the request instead
fails with an unhandled error, per the `tracklist` crash branch.) -/
theorem c2_hit_count_semantics (t : ItemList) (lh : List (String × List HitEvent))
    (k : String) (r : LinkRecord) (hmem : (k, r) ∈ t) (hlh : lh ≠ []) :
    tracklist t lh = TracklistResult.overview (tracklistOverview t lh) ∧
    (∀ hs, lookupA lh k = some hs →
      (k, { r with hits := some hs.length }) ∈ overviewItems (tracklistOverview t lh)) ∧
    (lookupA lh k = none → (k, r) ∈ overviewItems (tracklistOverview t lh)) := by
  have hperm := overviewItems_perm t lh
  refine ⟨?_, ?_, ?_⟩
  · cases t with
    | nil => exact absurd hmem (List.not_mem_nil _)
    | cons a as =>
      cases lh with
      | nil => exact absurd rfl hlh
      | cons x xs => rfl
  · intro hs hlk
    apply hperm.mem_iff.mpr
    unfold annotateHits
    exact List.mem_map.mpr ⟨(k, r), hmem, by simp [hlk]⟩
  · intro hlk
    apply hperm.mem_iff.mpr
    unfold annotateHits
    exact List.mem_map.mpr ⟨(k, r), hmem, by simp [hlk]⟩

/-- Witness for C2: a two-link input with a non-empty hits dict where
link `"a"` has one recorded hit; the overview contains `"a"` annotated
with hit count 1. -/
theorem c2_hit_count_semantics_witness :
    ("a", (⟨"t", "m", ⟨2024, 3, 1⟩, none⟩ : LinkRecord)) ∈
      [("a", (⟨"t", "m", ⟨2024, 3, 1⟩, none⟩ : LinkRecord)),
       ("b", (⟨"u", "n", ⟨2024, 4, 2⟩, none⟩ : LinkRecord))] ∧
    ([("a", [(⟨"ip1", "ua1", ⟨2024, 3, 2⟩⟩ : HitEvent)])] :
      List (String × List HitEvent)) ≠ [] ∧
    lookupA [("a", [(⟨"ip1", "ua1", ⟨2024, 3, 2⟩⟩ : HitEvent)])] "a" =
      some [⟨"ip1", "ua1", ⟨2024, 3, 2⟩⟩] ∧
    ("a", (⟨"t", "m", ⟨2024, 3, 1⟩, some 1⟩ : LinkRecord)) ∈
      overviewItems (tracklistOverview
        [("a", ⟨"t", "m", ⟨2024, 3, 1⟩, none⟩), ("b", ⟨"u", "n", ⟨2024, 4, 2⟩, none⟩)]
        [("a", [⟨"ip1", "ua1", ⟨2024, 3, 2⟩⟩])]) :=
  ⟨by decide, by decide, by decide,
   (c2_hit_count_semantics
      [("a", ⟨"t", "m", ⟨2024, 3, 1⟩, none⟩), ("b", ⟨"u", "n", ⟨2024, 4, 2⟩, none⟩)]
      [("a", [⟨"ip1", "ua1", ⟨2024, 3, 2⟩⟩])] "a" ⟨"t", "m", ⟨2024, 3, 1⟩, none⟩
      (by decide) (by decide)).2.1 [⟨"ip1", "ua1", ⟨2024, 3, 2⟩⟩] (by decide)⟩

/-- Claim C3, counterexample to the claim as stated.  On a store whose
global hit-index is entirely empty (no link ever generated),
`db.reference("/MailTrackData/LinkHits").get()` returns `None` and the
presence check `all_hits[utm_id]` at `routes.py:183` raises an uncaught
`TypeError` instead of the claimed 400 rejection (though still, nothing
is written). -/
theorem c3_empty_index_crashes :
    track ⟨some "z", none, none, "1.2.3.4", some "ua", ⟨2024, 1, 1⟩⟩
        (⟨[], []⟩ : Store) = (TrackResult.crash, ⟨[], []⟩) ∧
    TrackResult.crash ≠ TrackResult.badRequest :=
  ⟨rfl, by decide⟩

/-- Claim C3 as amended.  A pixel request whose `utm_id` query parameter
is missing, empty, or — provided the global hit-index is non-empty — not
present as a key in it, is rejected with a 400 client-input error and the
store is unchanged (no HitEvent is written for any utm_id).  (On an
entirely empty hit-index, a present non-empty `utm_id` instead raises an
unhandled error, the counterexample above; nothing is written there
either.) -/
theorem c3_invalid_utm_rejected (req : TrackRequest) (s : Store)
    (hbad : req.utmId = none ∨ req.utmId = some "" ∨
      ∃ u, req.utmId = some u ∧ u ≠ "" ∧ s.linkHits ≠ [] ∧ lookupA s.linkHits u = none) :
    track req s = (TrackResult.badRequest, s) := by
  rcases hbad with h | h | ⟨u, hu, hne, hnil, hlk⟩
  · simp [track, h]
  · simp [track, h]
  · have hroot : dbGetLinkHitsRoot s = some s.linkHits := by
      cases hsl : s.linkHits with
      | nil => exact absurd hsl hnil
      | cons x xs => simp [dbGetLinkHitsRoot, hsl]
    simp [track, hu, hne, hroot, hlk]

/-- Witness for C3: a request with no `utm_id` parameter against a store
with one registered link is rejected with 400, store unchanged. -/
theorem c3_invalid_utm_rejected_witness :
    ((⟨none, none, none, "ip", some "ua", ⟨2024, 1, 1⟩⟩ : TrackRequest).utmId = none ∨
      (⟨none, none, none, "ip", some "ua", ⟨2024, 1, 1⟩⟩ : TrackRequest).utmId = some "" ∨
      ∃ u, (⟨none, none, none, "ip", some "ua", ⟨2024, 1, 1⟩⟩ : TrackRequest).utmId = some u ∧
        u ≠ "" ∧ (⟨[], [("x", [])]⟩ : Store).linkHits ≠ [] ∧
        lookupA (⟨[], [("x", [])]⟩ : Store).linkHits u = none) ∧
    track ⟨none, none, none, "ip", some "ua", ⟨2024, 1, 1⟩⟩ (⟨[], [("x", [])]⟩ : Store) =
      (TrackResult.badRequest, ⟨[], [("x", [])]⟩) :=
  ⟨Or.inl rfl, c3_invalid_utm_rejected _ _ (Or.inl rfl)⟩

/-- Claim C4.  A pixel request for a `utm_id` present in the global
hit-index, made with a session whose user owns a link with that `utm_id`
(`routes.py:188`-`routes.py:195`), returns the pixel and leaves the whole
store — in particular the stored hit list of every `utm_id` — unchanged. -/
theorem c4_owner_self_view (req : TrackRequest) (s : Store) (utm uid : String)
    (recs : ItemList)
    (hutm : req.utmId = some utm) (hne : utm ≠ "")
    (hhit : lookupA s.linkHits utm ≠ none)
    (hsess : req.sessionUid = some uid)
    (huser : dbGetUsers s uid = some recs)
    (hown : utm ∈ recs.map Prod.fst) :
    track req s = (TrackResult.pixel, s) := by
  obtain ⟨v, hv⟩ := exists_some_of_ne_none hhit
  have hroot := dbRoot_of_lookup hv
  simp [track, hutm, hne, hroot, hv, hsess, huser, hown]

/-- Witness for C4: owner "u" of link "x" fetches their own pixel; the
pixel is returned and the store is unchanged. -/
theorem c4_owner_self_view_witness :
    (⟨some "x", some "u", none, "ip", some "ua", ⟨2024, 3, 3⟩⟩ : TrackRequest).utmId =
      some "x" ∧ "x" ≠ "" ∧
    lookupA (⟨[("u", [("x", ⟨"t", "m", ⟨2024, 2, 2⟩, none⟩)])],
      [("x", [])]⟩ : Store).linkHits "x" ≠ none ∧
    dbGetUsers ⟨[("u", [("x", ⟨"t", "m", ⟨2024, 2, 2⟩, none⟩)])], [("x", [])]⟩ "u" =
      some [("x", ⟨"t", "m", ⟨2024, 2, 2⟩, none⟩)] ∧
    "x" ∈ ([("x", (⟨"t", "m", ⟨2024, 2, 2⟩, none⟩ : LinkRecord))].map Prod.fst) ∧
    track ⟨some "x", some "u", none, "ip", some "ua", ⟨2024, 3, 3⟩⟩
        ⟨[("u", [("x", ⟨"t", "m", ⟨2024, 2, 2⟩, none⟩)])], [("x", [])]⟩ =
      (TrackResult.pixel, ⟨[("u", [("x", ⟨"t", "m", ⟨2024, 2, 2⟩, none⟩)])], [("x", [])]⟩) :=
  ⟨rfl, by decide, by decide, by decide, by decide,
   c4_owner_self_view _ _ "x" "u" [("x", ⟨"t", "m", ⟨2024, 2, 2⟩, none⟩)]
     rfl (by decide) (by decide) rfl (by decide) (by decide)⟩

/-- Claim C5.  Failing input for the claim: a requester authenticated as
user "v", whose namespace holds no tracking links at all, requests the
pixel of the registered foreign `utm_id` "x" with a User-Agent present.
The claim (and `routes.py`'s own docstring) say a HitEvent is appended
and the pixel returned; instead `user_data.keys()` at `routes.py:192`
raises an uncaught `AttributeError` (`user_data` is `None`), the request
crashes, and the store is unchanged. -/
theorem c5_nonowner_empty_namespace_crash :
    track ⟨some "x", some "v", none, "9.9.9.9", some "agent", ⟨2024, 5, 1⟩⟩
        (⟨[("w", [("y", ⟨"t", "m", ⟨2024, 1, 5⟩, none⟩)])], [("x", [])]⟩ : Store) =
      (TrackResult.crash,
        ⟨[("w", [("y", ⟨"t", "m", ⟨2024, 1, 5⟩, none⟩)])], [("x", [])]⟩) ∧
    TrackResult.crash ≠ TrackResult.pixel :=
  ⟨rfl, by decide⟩

/-- Claim C6.  A pixel request that reaches the hit-recording branch
(valid `utm_id`, and either no session `uid` or a non-owning user with a
non-empty namespace) but carries no User-Agent header fails on the header
lookup at `routes.py:202`, before the database write at
`routes.py:206`-`routes.py:213`: it is rejected as a client-input error
and the store is unchanged — no partial side effects. -/
theorem c6_missing_user_agent_rejected (req : TrackRequest) (s : Store) (utm : String)
    (hutm : req.utmId = some utm) (hne : utm ≠ "")
    (hhit : lookupA s.linkHits utm ≠ none)
    (hnoua : req.userAgent = none)
    (hrec : req.sessionUid = none ∨
      ∃ uid recs, req.sessionUid = some uid ∧ dbGetUsers s uid = some recs ∧
        utm ∉ recs.map Prod.fst) :
    track req s = (TrackResult.badRequest, s) := by
  obtain ⟨v, hv⟩ := exists_some_of_ne_none hhit
  have hroot := dbRoot_of_lookup hv
  rcases hrec with hnone | ⟨uid, recs, hsess, huser, hnotown⟩
  · simp [track, hutm, hne, hroot, hv, hnone, recordHit, hnoua]
  · simp [track, hutm, hne, hroot, hv, hsess, huser, hnotown, recordHit, hnoua]

/-- Witness for C6: an anonymous request for registered link "x" without
a User-Agent header is rejected and writes nothing. -/
theorem c6_missing_user_agent_rejected_witness :
    (⟨some "x", none, none, "ip", none, ⟨2024, 3, 3⟩⟩ : TrackRequest).utmId = some "x" ∧
    "x" ≠ "" ∧
    lookupA (⟨[], [("x", [])]⟩ : Store).linkHits "x" ≠ none ∧
    (⟨some "x", none, none, "ip", none, ⟨2024, 3, 3⟩⟩ : TrackRequest).userAgent = none ∧
    track ⟨some "x", none, none, "ip", none, ⟨2024, 3, 3⟩⟩ (⟨[], [("x", [])]⟩ : Store) =
      (TrackResult.badRequest, ⟨[], [("x", [])]⟩) :=
  ⟨rfl, by decide, by decide, rfl,
   c6_missing_user_agent_rejected _ _ "x" rfl (by decide) (by decide) rfl (Or.inl rfl)⟩

/-- Claim C7.  Within every (year, month) group of the overview output,
the links are sorted by `generated_on` descending (most recent first),
the per-month sort of `routes.py:118`-`routes.py:122`. -/
theorem c7_within_month_sorted_desc (t : ItemList) (h : List (String × List HitEvent))
    (y : Nat) (ng : NamedMonthGroups) (hy : (y, ng) ∈ tracklistOverview t h)
    (mname : String) (grp : ItemList) (hm : (mname, grp) ∈ ng) :
    grp.Pairwise (fun a b => descOn a b = true) := by
  simp only [tracklistOverview] at hy
  rcases List.mem_map.mp hy with ⟨ym, hymG, hF⟩
  have hng : ng = ym.2.map (fun mi => (monthName mi.1, mi.2)) := by
    have h2 := congrArg Prod.snd hF
    simpa using h2.symm
  rw [hng] at hm
  rcases List.mem_map.mp hm with ⟨mi, hmi, hmieq⟩
  have hgrp : grp = mi.2 := by
    have h2 := congrArg Prod.snd hmieq
    simpa using h2.symm
  have hym2 : ym ∈ sortWithinMonths (groupByYearMonth (annotateHits t h)) := by
    have hp := sortR_perm yearDesc (sortWithinMonths (groupByYearMonth (annotateHits t h)))
    exact hp.mem_iff.mp (by simpa [sortYears] using hymG)
  simp only [sortWithinMonths] at hym2
  rcases List.mem_map.mp hym2 with ⟨ym0, _, hfym⟩
  rw [← hfym] at hmi
  simp only at hmi
  rcases List.mem_map.mp hmi with ⟨mg, _, hmgeq⟩
  have hsorted : mi.2 = sortR descOn mg.2 := by
    have h2 := congrArg Prod.snd hmgeq
    simpa using h2.symm
  rw [hgrp, hsorted]
  exact sortR_pairwise descOn descOn_trans descOn_total mg.2

/-- Witness for C7: the spec's own example — two links of one user made
on 2024-03-01 and 2024-03-15 are grouped under (2024, "March") and
displayed most-recent-first, [B, A]. -/
theorem c7_within_month_sorted_desc_witness :
    ((2024 : Nat),
      [("March",
        [("b", (⟨"tB", "mB", ⟨2024, 3, 15⟩, none⟩ : LinkRecord)),
         ("a", (⟨"tA", "mA", ⟨2024, 3, 1⟩, none⟩ : LinkRecord))])]) ∈
      tracklistOverview
        [("a", ⟨"tA", "mA", ⟨2024, 3, 1⟩, none⟩),
         ("b", ⟨"tB", "mB", ⟨2024, 3, 15⟩, none⟩)] [] ∧
    ("March",
      [("b", (⟨"tB", "mB", ⟨2024, 3, 15⟩, none⟩ : LinkRecord)),
       ("a", (⟨"tA", "mA", ⟨2024, 3, 1⟩, none⟩ : LinkRecord))]) ∈
      [("March",
        [("b", (⟨"tB", "mB", ⟨2024, 3, 15⟩, none⟩ : LinkRecord)),
         ("a", (⟨"tA", "mA", ⟨2024, 3, 1⟩, none⟩ : LinkRecord))])] ∧
    List.Pairwise (fun a b => descOn a b = true)
      [("b", (⟨"tB", "mB", ⟨2024, 3, 15⟩, none⟩ : LinkRecord)),
       ("a", (⟨"tA", "mA", ⟨2024, 3, 1⟩, none⟩ : LinkRecord))] :=
  ⟨by decide, by decide,
   c7_within_month_sorted_desc
     [("a", ⟨"tA", "mA", ⟨2024, 3, 1⟩, none⟩), ("b", ⟨"tB", "mB", ⟨2024, 3, 15⟩, none⟩)]
     [] 2024
     [("March",
       [("b", ⟨"tB", "mB", ⟨2024, 3, 15⟩, none⟩), ("a", ⟨"tA", "mA", ⟨2024, 3, 1⟩, none⟩)])]
     (by decide) "March"
     [("b", ⟨"tB", "mB", ⟨2024, 3, 15⟩, none⟩), ("a", ⟨"tA", "mA", ⟨2024, 3, 1⟩, none⟩)]
     (by decide)⟩

/-- Claim C8.  A logout request whose session credential is invalid or
missing is treated as already-logged-out (`routes.py:322`-`routes.py:324`):
the handler catches the verification failure and answers with a bare
redirect to the login page — no flashed message, no error, and no change
to the identity state. -/
theorem c8_logout_invalid_cookie (ident : IdentityState) (cookie : Option String)
    (hinv : verifySessionCookie ident cookie = none) :
    logout ident cookie = (⟨"login", false, []⟩, ident) := by
  simp [logout, hinv]

/-- Witness for C8: logout with no cookie at all against a state with one
live session redirects to login with nothing flashed and nothing revoked. -/
theorem c8_logout_invalid_cookie_witness :
    verifySessionCookie ⟨[("c1", "u1")]⟩ none = none ∧
    logout ⟨[("c1", "u1")]⟩ none =
      ((⟨"login", false, []⟩ : LogoutResponse), (⟨[("c1", "u1")]⟩ : IdentityState)) :=
  ⟨rfl, c8_logout_invalid_cookie ⟨[("c1", "u1")]⟩ none rfl⟩

/-- Claim C9.  A pixel request with a registered `utm_id`, made with an
authenticated session whose user namespace contains no tracking links at
all: `user_data` at `routes.py:191` is `None`, `user_data.keys()` raises
`AttributeError`, which the `except KeyError` fallback at `routes.py:199`
does not catch — the handler is not total here, crashing instead of
recording a HitEvent and returning the pixel (store unchanged). -/
theorem c9_no_links_session_crash (req : TrackRequest) (s : Store) (utm uid : String)
    (hutm : req.utmId = some utm) (hne : utm ≠ "")
    (hhit : lookupA s.linkHits utm ≠ none)
    (hsess : req.sessionUid = some uid)
    (hnolinks : dbGetUsers s uid = none) :
    track req s = (TrackResult.crash, s) := by
  obtain ⟨v, hv⟩ := exists_some_of_ne_none hhit
  have hroot := dbRoot_of_lookup hv
  simp [track, hutm, hne, hroot, hv, hsess, hnolinks]

/-- Witness for C9: user "nobody" (no tracking links) requests the pixel
of registered link "x"; the handler crashes and writes nothing. -/
theorem c9_no_links_session_crash_witness :
    (⟨some "x", some "nobody", none, "ip", some "ua", ⟨2024, 3, 3⟩⟩ : TrackRequest).utmId =
      some "x" ∧ "x" ≠ "" ∧
    lookupA (⟨[], [("x", [])]⟩ : Store).linkHits "x" ≠ none ∧
    dbGetUsers ⟨[], [("x", [])]⟩ "nobody" = none ∧
    track ⟨some "x", some "nobody", none, "ip", some "ua", ⟨2024, 3, 3⟩⟩
        (⟨[], [("x", [])]⟩ : Store) = (TrackResult.crash, ⟨[], [("x", [])]⟩) :=
  ⟨rfl, by decide, by decide, rfl,
   c9_no_links_session_crash _ _ "x" "nobody" rfl (by decide) (by decide) rfl rfl⟩

/-- Claim C10.  The grouping and sorting of the track list neither drops
nor duplicates records: for a non-empty input mapping (distinct keys),
every `utm_id` key of the input appears exactly once across all
(year, month) groups of the output. -/
theorem c10_no_drop_no_dup (t : ItemList) (h : List (String × List HitEvent))
    (_hne : t ≠ []) (hnd : (t.map Prod.fst).Nodup)
    (k : String) (hk : k ∈ t.map Prod.fst) :
    ((overviewItems (tracklistOverview t h)).map Prod.fst).count k = 1 := by
  have hperm : List.Perm ((overviewItems (tracklistOverview t h)).map Prod.fst)
      (t.map Prod.fst) := by
    have hp := (overviewItems_perm t h).map Prod.fst
    rwa [annotateHits_map_fst] at hp
  rw [hperm.count_eq]
  exact List.count_eq_one_of_mem hnd hk

/-- Witness for C10: a two-link input (different years); key "a" appears
exactly once across the output groups. -/
theorem c10_no_drop_no_dup_witness :
    ([("a", (⟨"t1", "m1", ⟨2024, 1, 2⟩, none⟩ : LinkRecord)),
      ("b", (⟨"t2", "m2", ⟨2023, 6, 4⟩, none⟩ : LinkRecord))] : ItemList) ≠ [] ∧
    (([("a", (⟨"t1", "m1", ⟨2024, 1, 2⟩, none⟩ : LinkRecord)),
       ("b", (⟨"t2", "m2", ⟨2023, 6, 4⟩, none⟩ : LinkRecord))] : ItemList).map Prod.fst).Nodup ∧
    "a" ∈ ([("a", (⟨"t1", "m1", ⟨2024, 1, 2⟩, none⟩ : LinkRecord)),
      ("b", (⟨"t2", "m2", ⟨2023, 6, 4⟩, none⟩ : LinkRecord))] : ItemList).map Prod.fst ∧
    ((overviewItems (tracklistOverview
        [("a", ⟨"t1", "m1", ⟨2024, 1, 2⟩, none⟩),
         ("b", ⟨"t2", "m2", ⟨2023, 6, 4⟩, none⟩)] [])).map Prod.fst).count "a" = 1 :=
  ⟨by decide, by decide, by decide,
   c10_no_drop_no_dup
     [("a", ⟨"t1", "m1", ⟨2024, 1, 2⟩, none⟩), ("b", ⟨"t2", "m2", ⟨2023, 6, 4⟩, none⟩)]
     [] (by decide) (by decide) "a" (by decide)⟩
